import Mathlib

/-!
Verification of the ResvgBridge boundary contract (`resvg_bridge.h`).

The repository ships only the C header of the bridge (`resvg_bridge.h`);
the implementation behind it is not part of `src/`.  Every operation is
therefore modelled from the specification: `rb_render_svg_to_rgba`,
`rb_last_error`, `rb_last_error_copy` and `rb_free_image`, together with
the per-thread Error Record and the `RBImage` buffer handle.

Modelling choices:
* machine pointers are modelled as `Option` values (`none` = null);
* the per-thread Error Record is a map `ThreadId → Option String`
  (`none` = absent, `some m` = present with message `m`);
* the external Rendering Engine is an abstract parameter producing
  `Except String (List Nat)` (diagnostic text or RGBA bytes);
* the allocator state relevant to `rb_free_image` is the liveness of the
  handle's allocation, a `Bool`; a faulting call (double free) is `none`.
-/

namespace ResvgBridge

/-- Modelled from the spec: a calling thread's identity, used to key the
thread-local Error Record. -/
abbrev ThreadId := Nat

/-- Modelled from the spec: the Error Channel, "process-wide-per-thread state
holding the most recent failure message for the calling thread".
`none` means the record is absent for that thread. -/
abbrev ErrState := ThreadId → Option String

/-- Modelled from the spec and `resvg_bridge.h` (struct `RBImage`): the Buffer
Handle returned across the boundary.  `ptr` is the data reference (`none` for
the null pointer, `some bytes` for an allocation holding those RGBA bytes),
`len` the byte length, `width` and `height` the pixel dimensions. -/
structure RBImage where
  ptr : Option (List Nat)
  len : Nat
  width : Nat
  height : Nat
  deriving DecidableEq, Repr

/-- Modelled from the spec: the empty handle, "the canonical failure
representation — no allocation, zero width and height". -/
def RBImage.empty : RBImage := ⟨none, 0, 0, 0⟩

/-- Structural invariant of a Buffer Handle (spec §3): byte length equals
width × height × 4 whenever both dimensions are nonzero; if either dimension
is zero the data reference is empty. -/
def RBImage.Invariant (img : RBImage) : Prop :=
  (img.width ≠ 0 ∧ img.height ≠ 0 → img.len = img.width * img.height * 4) ∧
  (img.width = 0 ∨ img.height = 0 → img.ptr = none)

/-- Modelled from the spec: the external Rendering Engine, "given document
bytes and a target pixel box, produces RGBA pixel data or fails with a
diagnostic message".  Its internals are out of scope; the bridge only invokes
it. -/
structure Engine where
  run : List Nat → Nat → Nat → Except String (List Nat)

/-- A well-behaved engine produces exactly width × height × 4 bytes on
success (spec §4.1 step 2). -/
def Engine.Wf (eng : Engine) : Prop :=
  ∀ svg w h px, eng.run svg w h = Except.ok px → px.length = w * h * 4

/-- Modelled from the spec: validation message for an empty document byte
sequence (spec §4.1 input constraints). -/
def emptySvgMsg : String := "SVG data is empty"

/-- Modelled from the spec: validation message for non-positive target
dimensions (spec §4.1 input constraints). -/
def badDimsMsg : String := "width and height must be greater than zero"

/-- Modelled from the spec: "a generic message if the engine provides none"
(spec §4.1 step 4). -/
def genericEngineMsg : String := "rendering failed"

/-- Modelled from the spec (§4.1 Render Operation, steps 1–4): the pure
outcome of one render call — validation, delegation to the engine, and
packaging of the produced bytes into a Buffer Handle. -/
def renderCore (eng : Engine) (svg : List Nat) (w h : Nat) :
    Except String RBImage :=
  if svg.isEmpty then Except.error emptySvgMsg
  else if w = 0 ∨ h = 0 then Except.error badDimsMsg
  else
    match eng.run svg w h with
    | Except.ok px => Except.ok ⟨some px, px.length, w, h⟩
    | Except.error e =>
        Except.error (if e = "" then genericEngineMsg else e)

/-- Modelled from the spec: `rb_render_svg_to_rgba`.  On success the Buffer
Handle is returned and the calling thread's Error Record is untouched; on
failure the empty handle is returned and the calling thread's Error Record is
overwritten with the failure message (spec §4.1, §3 Error Record). -/
def rb_render_svg_to_rgba (eng : Engine) (tid : ThreadId) (svg : List Nat)
    (w h : Nat) (s : ErrState) : RBImage × ErrState :=
  match renderCore eng svg w h with
  | Except.ok img => (img, s)
  | Except.error m => (RBImage.empty, fun t => if t = tid then some m else s t)

/-- Modelled from the spec: `rb_last_error` ("Peek").  Returns the current
thread's error text (`none` playing the role of the null pointer) and leaves
the Error Record untouched. -/
def rb_last_error (tid : ThreadId) (s : ErrState) : Option String × ErrState :=
  (s tid, s)

/-- Modelled from the spec: `rb_last_error_copy` ("Copy-into").  `bufNull`
models a null destination pointer, `cap` the destination capacity in bytes.
Returns the count of bytes written (excluding the terminator), the bytes
written into the destination buffer (`none` when no write is performed), and
the unchanged Error Record. -/
def rb_last_error_copy (tid : ThreadId) (bufNull : Bool) (cap : Nat)
    (s : ErrState) : Nat × Option (List Char) × ErrState :=
  if bufNull = true ∨ cap = 0 then (0, none, s)
  else
    match s tid with
    | none => (0, none, s)
    | some msg =>
        (min msg.length (cap - 1),
          some (msg.toList.take (min msg.length (cap - 1)) ++ [Char.ofNat 0]),
          s)

/-- Modelled from the spec: `rb_free_image`.  `live` records whether the
handle's allocation is currently live; the result is the new liveness, or
`none` when the call faults (releasing an allocation that is no longer
owned — double free, spec §4.3 and §7 "Misuse"). -/
def rb_free_image (img : RBImage) (live : Bool) : Option Bool :=
  match img.ptr with
  | none => some live
  | some _ => if live then some false else none

/-- `rb_free_image` invoked `n` times in sequence on the same handle,
faulting as soon as one call faults. -/
def freeTimes : Nat → RBImage → Bool → Option Bool
  | 0, _, live => some live
  | n + 1, img, live => (rb_free_image img live).bind (freeTimes n img)

/-- A concrete engine used to instantiate the universally quantified
theorems: it accepts any document starting with the byte of `<` and renders
it to an all-zero RGBA buffer of the requested size. -/
def demoEngine : Engine :=
  ⟨fun svg w h =>
    if svg.head? = some 60 then Except.ok (List.replicate (w * h * 4) 0)
    else Except.error "failed to parse SVG data"⟩

/-- A concrete error state with an error present on every thread. -/
def someErrState : ErrState := fun _ => some "boom!"

/-- A concrete error state with no error present on any thread. -/
def noErrState : ErrState := fun _ => none

theorem demoEngine_wf : demoEngine.Wf := by
  intro svg w h px hrun
  unfold demoEngine at hrun
  simp only [Engine.run] at hrun
  split at hrun
  · cases hrun
    exact List.length_replicate _ _
  · cases hrun

theorem renderCore_ok_iff (eng : Engine) (svg : List Nat) (w h : Nat)
    (img : RBImage) :
    renderCore eng svg w h = Except.ok img ↔
      svg ≠ [] ∧ w ≠ 0 ∧ h ≠ 0 ∧
        ∃ px, eng.run svg w h = Except.ok px ∧
          img = ⟨some px, px.length, w, h⟩ := by
  unfold renderCore
  constructor
  · intro hok
    split at hok
    · cases hok
    · split at hok
      · cases hok
      · rename_i hsvg hdims
        constructor
        · simpa [List.isEmpty_iff] using hsvg
        constructor
        · intro hw; exact hdims (Or.inl hw)
        constructor
        · intro hh; exact hdims (Or.inr hh)
        · cases hrun : eng.run svg w h with
          | ok px =>
              rw [hrun] at hok
              cases hok
              exact ⟨px, rfl, rfl⟩
          | error e =>
              rw [hrun] at hok
              cases hok
  · rintro ⟨hsvg, hw, hh, px, hrun, himg⟩
    rw [if_neg (by simpa [List.isEmpty_iff] using hsvg),
        if_neg (by rintro (h | h) <;> [exact hw h; exact hh h]), hrun, himg]

/-- C1: for every valid SVG byte sequence (one the engine renders
successfully, hence non-empty) and strictly positive dimensions,
`rb_render_svg_to_rgba` returns a handle with `len = w * h * 4`,
`width = w`, `height = h` and a non-null, non-empty data reference. -/
theorem render_success_shape (eng : Engine) (tid : ThreadId) (svg : List Nat)
    (w h : Nat) (s : ErrState) (px : List Nat)
    (hsvg : svg ≠ []) (hw : 0 < w) (hh : 0 < h)
    (hrun : eng.run svg w h = Except.ok px) (hlen : px.length = w * h * 4) :
    (rb_render_svg_to_rgba eng tid svg w h s).1.len = w * h * 4 ∧
    (rb_render_svg_to_rgba eng tid svg w h s).1.width = w ∧
    (rb_render_svg_to_rgba eng tid svg w h s).1.height = h ∧
    (rb_render_svg_to_rgba eng tid svg w h s).1.ptr = some px ∧
    px ≠ [] := by
  have hcore : renderCore eng svg w h = Except.ok ⟨some px, px.length, w, h⟩ :=
    (renderCore_ok_iff eng svg w h _).2
      ⟨hsvg, Nat.pos_iff_ne_zero.1 hw, Nat.pos_iff_ne_zero.1 hh,
        px, hrun, rfl⟩
  have hpx : px ≠ [] := by
    intro hnil
    rw [hnil] at hlen
    have : 0 < w * h * 4 :=
      Nat.mul_pos (Nat.mul_pos hw hh) (by norm_num)
    simp at hlen
    omega
  rw [rb_render_svg_to_rgba, hcore]
  exact ⟨hlen, rfl, rfl, rfl, hpx⟩

/-- Closed instance of `render_success_shape` at the demo engine on the
document `[60]` rendered at 2 × 3. -/
theorem render_success_shape_witness :
    (rb_render_svg_to_rgba demoEngine 0 [60] 2 3 noErrState).1.len = 2 * 3 * 4 ∧
    (rb_render_svg_to_rgba demoEngine 0 [60] 2 3 noErrState).1.width = 2 ∧
    (rb_render_svg_to_rgba demoEngine 0 [60] 2 3 noErrState).1.height = 3 ∧
    (rb_render_svg_to_rgba demoEngine 0 [60] 2 3 noErrState).1.ptr =
      some (List.replicate 24 0) ∧
    List.replicate 24 (0 : Nat) ≠ [] :=
  render_success_shape demoEngine 0 [60] 2 3 noErrState
    (List.replicate 24 0) (by decide) (by decide) (by decide)
    (by rfl) (by decide)

/-- C2: on an input-constraint violation (empty document, or zero width, or
zero height) the render operation returns the empty handle, writes a
descriptive (non-empty) message to the calling thread's Error Record, and is
independent of the Rendering Engine — the same result is produced whatever
engine is installed, i.e. the engine is never invoked. -/
theorem render_validation_failure (eng : Engine) (tid : ThreadId)
    (svg : List Nat) (w h : Nat) (s : ErrState)
    (hviol : svg = [] ∨ w = 0 ∨ h = 0) :
    (rb_render_svg_to_rgba eng tid svg w h s).1 = RBImage.empty ∧
    (∃ m, (rb_render_svg_to_rgba eng tid svg w h s).2 tid = some m ∧
      m ≠ "") ∧
    (∀ eng2, rb_render_svg_to_rgba eng2 tid svg w h s =
      rb_render_svg_to_rgba eng tid svg w h s) := by
  have hsame : ∀ e2 : Engine, renderCore e2 svg w h = renderCore eng svg w h := by
    intro e2
    unfold renderCore
    rcases hviol with hsvg | hdims
    · rw [if_pos (by simp [hsvg]), if_pos (by simp [hsvg])]
    · by_cases hse : svg.isEmpty
      · rw [if_pos hse, if_pos hse]
      · rw [if_neg hse, if_neg hse, if_pos hdims, if_pos hdims]
  have hcore : renderCore eng svg w h = Except.error emptySvgMsg ∨
      renderCore eng svg w h = Except.error badDimsMsg := by
    unfold renderCore
    rcases hviol with hsvg | hdims
    · left
      rw [if_pos (by simp [hsvg])]
    · by_cases hse : svg.isEmpty
      · left; rw [if_pos hse]
      · right
        rw [if_neg hse, if_pos hdims]
  have heng : ∀ eng2, rb_render_svg_to_rgba eng2 tid svg w h s =
      rb_render_svg_to_rgba eng tid svg w h s := by
    intro eng2
    rw [rb_render_svg_to_rgba, rb_render_svg_to_rgba, hsame eng2]
  rcases hcore with hc | hc
  · refine ⟨by rw [rb_render_svg_to_rgba, hc],
      ⟨emptySvgMsg, ?_, by decide⟩, heng⟩
    rw [rb_render_svg_to_rgba, hc]
    simp
  · refine ⟨by rw [rb_render_svg_to_rgba, hc],
      ⟨badDimsMsg, ?_, by decide⟩, heng⟩
    rw [rb_render_svg_to_rgba, hc]
    simp

/-- Closed instance of `render_validation_failure`: rendering at width zero
yields the empty handle, an error message, and an engine-independent
result. -/
theorem render_validation_failure_witness :
    (rb_render_svg_to_rgba demoEngine 0 [60] 0 5 someErrState).1 =
      RBImage.empty ∧
    (∃ m, (rb_render_svg_to_rgba demoEngine 0 [60] 0 5 someErrState).2 0 =
      some m ∧ m ≠ "") ∧
    (∀ eng2, rb_render_svg_to_rgba eng2 0 [60] 0 5 someErrState =
      rb_render_svg_to_rgba demoEngine 0 [60] 0 5 someErrState) :=
  render_validation_failure demoEngine 0 [60] 0 5 someErrState
    (Or.inr (Or.inl rfl))

/-- C3: on a malformed document (empty byte sequence, or any input the
engine rejects) with positive dimensions, the render operation returns the
empty handle and leaves the calling thread's Error Record present with a
non-empty message. -/
theorem render_malformed_failure (eng : Engine) (tid : ThreadId)
    (svg : List Nat) (w h : Nat) (s : ErrState) (hw : 0 < w) (hh : 0 < h)
    (hbad : svg = [] ∨ ∃ e, eng.run svg w h = Except.error e) :
    (rb_render_svg_to_rgba eng tid svg w h s).1 = RBImage.empty ∧
    (∃ m, (rb_render_svg_to_rgba eng tid svg w h s).2 tid = some m ∧
      m ≠ "") := by
  have hcore : ∃ m, renderCore eng svg w h = Except.error m ∧ m ≠ "" := by
    unfold renderCore
    by_cases hsvg : svg.isEmpty
    · exact ⟨emptySvgMsg, by rw [if_pos hsvg], by decide⟩
    · rcases hbad with hnil | ⟨e, herr⟩
      · exact absurd (by simp [hnil]) hsvg
      · refine ⟨if e = "" then genericEngineMsg else e, ?_, ?_⟩
        · rw [if_neg hsvg,
            if_neg (by rintro (h0 | h0) <;> omega), herr]
        · by_cases he : e = "" <;> simp [he, genericEngineMsg]
  rcases hcore with ⟨m, hc, hm⟩
  rw [rb_render_svg_to_rgba, hc]
  exact ⟨rfl, m, by simp, hm⟩

/-- Closed instance of `render_malformed_failure` on a non-SVG document the
demo engine rejects. -/
theorem render_malformed_failure_witness :
    (rb_render_svg_to_rgba demoEngine 0 [1, 2] 4 4 noErrState).1 =
      RBImage.empty ∧
    (∃ m, (rb_render_svg_to_rgba demoEngine 0 [1, 2] 4 4 noErrState).2 0 =
      some m ∧ m ≠ "") :=
  render_malformed_failure demoEngine 0 [1, 2] 4 4 noErrState
    (by decide) (by decide)
    (Or.inr ⟨"failed to parse SVG data", by rfl⟩)

/-- C4: every Buffer Handle produced by the render operation — the only
bridge operation that creates handles — satisfies the structural invariant,
provided the Rendering Engine honours its contract of producing exactly
width × height × 4 bytes on success. -/
theorem render_handle_invariant (eng : Engine) (tid : ThreadId)
    (svg : List Nat) (w h : Nat) (s : ErrState) (hwf : eng.Wf) :
    RBImage.Invariant (rb_render_svg_to_rgba eng tid svg w h s).1 := by
  cases hcore : renderCore eng svg w h with
  | ok img =>
      rcases (renderCore_ok_iff eng svg w h img).1 hcore with
        ⟨hsvg, hw, hh, px, hrun, himg⟩
      rw [rb_render_svg_to_rgba, hcore, himg]
      exact ⟨fun _ => hwf svg w h px hrun, fun hz => absurd hz (by simp [hw, hh])⟩
  | error m =>
      rw [rb_render_svg_to_rgba, hcore]
      exact ⟨fun hz => absurd rfl hz.1, fun _ => rfl⟩

/-- Closed instance of `render_handle_invariant` at the demo engine. -/
theorem render_handle_invariant_witness :
    RBImage.Invariant
      (rb_render_svg_to_rgba demoEngine 0 [60] 7 5 noErrState).1 :=
  render_handle_invariant demoEngine 0 [60] 7 5 noErrState demoEngine_wf

theorem rb_last_error_copy_state (tid : ThreadId) (bufNull : Bool)
    (cap : Nat) (s : ErrState) :
    (rb_last_error_copy tid bufNull cap s).2.2 = s := by
  unfold rb_last_error_copy
  split
  · rfl
  · split <;> rfl

/-- C5: a successful render leaves the calling thread's Error Record
unchanged; a failing render overwrites it with the new failure message,
whatever the record held before (last-failure-wins); and the two error
accessors never modify the record. -/
theorem error_record_discipline (eng : Engine) (tid : ThreadId)
    (svg : List Nat) (w h : Nat) (s : ErrState) (bufNull : Bool) (cap : Nat) :
    ((∃ img, renderCore eng svg w h = Except.ok img) →
      (rb_render_svg_to_rgba eng tid svg w h s).2 = s) ∧
    (∀ m, renderCore eng svg w h = Except.error m →
      (rb_render_svg_to_rgba eng tid svg w h s).2 tid = some m ∧
      ∀ s2 : ErrState,
        (rb_render_svg_to_rgba eng tid svg w h s2).2 tid = some m) ∧
    (rb_last_error tid s).2 = s ∧
    (rb_last_error_copy tid bufNull cap s).2.2 = s := by
  refine ⟨?_, ?_, rfl, rb_last_error_copy_state tid bufNull cap s⟩
  · rintro ⟨img, hc⟩
    rw [rb_render_svg_to_rgba, hc]
  · intro m hc
    constructor
    · rw [rb_render_svg_to_rgba, hc]
      simp
    · intro s2
      rw [rb_render_svg_to_rgba, hc]
      simp

/-- Closed instance of `error_record_discipline`: a successful render leaves
the state untouched, a failing one records its message. -/
theorem error_record_discipline_witness :
    (rb_render_svg_to_rgba demoEngine 0 [60] 1 1 someErrState).2 =
      someErrState ∧
    (rb_render_svg_to_rgba demoEngine 0 [] 1 1 someErrState).2 0 =
      some emptySvgMsg :=
  ⟨(error_record_discipline demoEngine 0 [60] 1 1 someErrState false 1).1
      ⟨⟨some (List.replicate 4 0), 4, 1, 1⟩, by rfl⟩,
    ((error_record_discipline demoEngine 0 [] 1 1 someErrState false 1).2.1
      emptySvgMsg (by rfl)).1⟩

/-- C6: `rb_last_error_copy` returns 0 and performs no write when the
destination is null, the capacity is zero, or no error is present; and
whenever the capacity is positive, the count written never exceeds
capacity − 1 and any written output is null-terminated within the supplied
capacity. -/
theorem last_error_copy_contract (tid : ThreadId) (bufNull : Bool)
    (cap : Nat) (s : ErrState) :
    ((bufNull = true ∨ cap = 0 ∨ s tid = none) →
      rb_last_error_copy tid bufNull cap s = (0, none, s)) ∧
    (0 < cap →
      (rb_last_error_copy tid bufNull cap s).1 ≤ cap - 1 ∧
      ∀ out, (rb_last_error_copy tid bufNull cap s).2.1 = some out →
        out.length ≤ cap ∧ out.getLast? = some (Char.ofNat 0)) := by
  constructor
  · rintro (hb | hc | hn)
    · unfold rb_last_error_copy
      rw [if_pos (Or.inl hb)]
    · unfold rb_last_error_copy
      rw [if_pos (Or.inr hc)]
    · unfold rb_last_error_copy
      split
      · rfl
      · rw [hn]
  · intro hcap
    unfold rb_last_error_copy
    split
    · exact ⟨Nat.zero_le _, fun out hout => by cases hout⟩
    · split
      · exact ⟨Nat.zero_le _, fun out hout => by cases hout⟩
      · rename_i msg heq
        refine ⟨min_le_right _ _, ?_⟩
        intro out hout
        obtain rfl : msg.toList.take (min msg.length (cap - 1)) ++
            [Char.ofNat 0] = out := by cases hout; rfl
        refine ⟨?_, List.getLast?_concat _⟩
        rw [List.length_append, List.length_take]
        simp only [List.length_singleton]
        omega

/-- Closed instance of `last_error_copy_contract`: a null destination gives
a zero count with no write, and a 3-byte copy of a longer error writes at
most 2 bytes. -/
theorem last_error_copy_contract_witness :
    rb_last_error_copy 0 true 5 someErrState = (0, none, someErrState) ∧
    (rb_last_error_copy 0 false 3 someErrState).1 ≤ 2 :=
  ⟨(last_error_copy_contract 0 true 5 someErrState).1 (Or.inl rfl),
    ((last_error_copy_contract 0 false 3 someErrState).2 (by decide)).1⟩

/-- C7: the two error accessors are read-only with respect to the calling
thread's Error Record — each leaves it unchanged, so repeated reads observe
the same error text. -/
theorem error_accessors_readonly (tid : ThreadId) (bufNull : Bool)
    (cap : Nat) (s : ErrState) :
    (rb_last_error tid s).2 = s ∧
    (rb_last_error_copy tid bufNull cap s).2.2 = s ∧
    (rb_last_error tid ((rb_last_error tid s).2)).1 =
      (rb_last_error tid s).1 ∧
    rb_last_error_copy tid bufNull cap
        ((rb_last_error_copy tid bufNull cap s).2.2) =
      rb_last_error_copy tid bufNull cap s := by
  refine ⟨rfl, rb_last_error_copy_state tid bufNull cap s, rfl, ?_⟩
  rw [rb_last_error_copy_state tid bufNull cap s]

/-- C8: invoking `rb_free_image` on the empty handle any number of times
never faults and has no observable effect on the allocator state. -/
theorem free_empty_handle_noop (n : Nat) (live : Bool) :
    freeTimes n RBImage.empty live = some live := by
  induction n with
  | zero => rfl
  | succ n ih => exact ih

/-- C9: render calls on distinct threads are isolated.  With a failing input
on thread A and a succeeding input on thread B, both interleavings of the
two calls produce the same final state; in it A's Error Record is present
with A's failure message, B's record is exactly what it was before A's
failure, and more generally a render call on one thread never touches any
other thread's record. -/
theorem error_record_isolation (eng : Engine) (tidA tidB : ThreadId)
    (svgA svgB : List Nat) (wA dA wB dB : Nat) (s : ErrState) (mA : String)
    (imgB : RBImage) (hne : tidA ≠ tidB)
    (hfailA : renderCore eng svgA wA dA = Except.error mA)
    (hokB : renderCore eng svgB wB dB = Except.ok imgB) :
    (rb_render_svg_to_rgba eng tidB svgB wB dB
        (rb_render_svg_to_rgba eng tidA svgA wA dA s).2).2 =
      (rb_render_svg_to_rgba eng tidA svgA wA dA
        (rb_render_svg_to_rgba eng tidB svgB wB dB s).2).2 ∧
    (rb_render_svg_to_rgba eng tidB svgB wB dB
        (rb_render_svg_to_rgba eng tidA svgA wA dA s).2).2 tidA = some mA ∧
    (rb_render_svg_to_rgba eng tidB svgB wB dB
        (rb_render_svg_to_rgba eng tidA svgA wA dA s).2).2 tidB = s tidB ∧
    (∀ t, t ≠ tidA →
      (rb_render_svg_to_rgba eng tidA svgA wA dA s).2 t = s t) := by
  simp only [rb_render_svg_to_rgba, hfailA, hokB]
  refine ⟨by trivial, by simp, ?_, ?_⟩
  · simp [hne.symm]
  · intro t ht
    simp [ht]

/-- Closed instance of `error_record_isolation`: thread 0 fails on the empty
document while thread 1 succeeds; thread 0's record holds the validation
message and thread 1's record is still absent. -/
theorem error_record_isolation_witness :
    (rb_render_svg_to_rgba demoEngine 1 [60] 1 1
        (rb_render_svg_to_rgba demoEngine 0 [] 1 1 noErrState).2).2 0 =
      some emptySvgMsg ∧
    (rb_render_svg_to_rgba demoEngine 1 [60] 1 1
        (rb_render_svg_to_rgba demoEngine 0 [] 1 1 noErrState).2).2 1 =
      noErrState 1 :=
  ⟨(error_record_isolation demoEngine 0 1 [] [60] 1 1 1 1 noErrState
      emptySvgMsg ⟨some (List.replicate 4 0), 4, 1, 1⟩ (by decide)
      (by rfl) (by rfl)).2.1,
    (error_record_isolation demoEngine 0 1 [] [60] 1 1 1 1 noErrState
      emptySvgMsg ⟨some (List.replicate 4 0), 4, 1, 1⟩ (by decide)
      (by rfl) (by rfl)).2.2.1⟩

/-- C10 counterexample: calling `rb_free_image` twice on the same non-empty
handle is not safe — the first call releases the allocation and the second
faults (double free), so multi-free is not idempotent for every image. -/
theorem free_nonempty_double_free :
    freeTimes 1 ⟨some [1, 2, 3, 4], 4, 1, 1⟩ true = some false ∧
    freeTimes 2 ⟨some [1, 2, 3, 4], 4, 1, 1⟩ true = none :=
  ⟨rfl, rfl⟩

/-- C10 amended: a non-empty handle with a live allocation is freed
successfully exactly once; a second `rb_free_image` on the same handle
faults.  Multi-free safety holds only for empty handles. -/
theorem free_nonempty_exactly_once (img : RBImage) (p : List Nat)
    (hp : img.ptr = some p) :
    rb_free_image img true = some false ∧
    freeTimes 2 img true = none := by
  have h1 : rb_free_image img true = some false := by
    unfold rb_free_image
    rw [hp]
    rfl
  have h2 : rb_free_image img false = none := by
    unfold rb_free_image
    rw [hp]
    rfl
  refine ⟨h1, ?_⟩
  show (rb_free_image img true).bind (freeTimes 1 img) = none
  rw [h1]
  show (rb_free_image img false).bind (freeTimes 0 img) = none
  rw [h2]
  rfl

/-- Closed instance of `free_nonempty_exactly_once` at a concrete 1 × 1
handle. -/
theorem free_nonempty_exactly_once_witness :
    rb_free_image ⟨some [9, 9, 9, 9], 4, 1, 1⟩ true = some false ∧
    freeTimes 2 ⟨some [9, 9, 9, 9], 4, 1, 1⟩ true = none :=
  free_nonempty_exactly_once ⟨some [9, 9, 9, 9], 4, 1, 1⟩ [9, 9, 9, 9] rfl

end ResvgBridge
